import Mathlib

/-!
Verification of the orchestration core of `barman-cloud-backup`
(`src/barman/clients/cloud_backup.py`).

The development shallowly embeds the module's pure helpers
(`quote_conninfo`, `build_conninfo`, `__is_hook_script`) as Lean
functions, and the `main` entry point as a deterministic function from
the parsed configuration, the relevant process environment and the
behaviour of the external collaborators (cloud interface, PostgreSQL
connection, uploaders) to a process exit code together with a trace of
the externally visible events of the run.
-/

namespace CloudBackup

/-- Python's `re.compile(r"[\s]").search` applied to a character: ASCII
whitespace as matched by the regex class `[\s]`. (Python's `\s` also
matches some further Unicode whitespace; none of the properties below
depend on those code points, and both the code-side and the spec-side
definitions use this same predicate.) -/
def isSpaceChar (c : Char) : Bool :=
  c = ' ' || c = '\t' || c = '\n' || c = '\r' || c = '\x0b' || c = '\x0c'

/-- `s.replace(c, r)` for a one-character pattern `c`, on the character
list of the string: every occurrence of `c` is replaced by `r`. -/
def replaceChar (c : Char) (r : List Char) : List Char → List Char
  | [] => []
  | x :: xs => (if x = c then r else [x]) ++ replaceChar c r xs

/-- `value.replace("\\", "\\\\").replace("'", "\\'")` from
`quote_conninfo`: escape backslashes first, then single quotes. -/
def escapeConninfo (l : List Char) : List Char :=
  replaceChar '\'' ['\\', '\''] (replaceChar '\\' ['\\', '\\'] l)

/-- `quote_conninfo` (cloud_backup.py lines 66-77): the empty value
becomes `''`; a value without whitespace is returned unmodified; a value
with whitespace is wrapped in single quotes with embedded backslashes
and single quotes escaped. -/
def quote_conninfo (value : String) : String :=
  if value.isEmpty then "''"
  else if !(value.data.any isSpaceChar) then value
  else String.mk ('\'' :: escapeConninfo value.data ++ ['\''])

/-- The fields of the parsed argument namespace that the embedded code
consumes. `host`, `port`, `user` default to `none` (argparse `None`);
`dbname` defaults to `some "postgres"`. -/
structure Config where
  test : Bool
  host : Option String
  port : Option String
  user : Option String
  dbname : Option String
deriving Repr, DecidableEq

/-- Python truthiness of an optional string: `None` and `""` are falsy. -/
def truthy : Option String → Bool
  | none => false
  | some s => !s.isEmpty

/-- The list `conn_parts` built by `build_conninfo` when `dbname` is not
a DSN: `key=value` pairs in the fixed order host, port, user, dbname,
each guarded by Python truthiness of the source value. -/
def conn_parts (config : Config) : List String :=
  (if truthy config.host then ["host=" ++ quote_conninfo (config.host.getD "")] else [])
  ++ (if truthy config.port then ["port=" ++ quote_conninfo (config.port.getD "")] else [])
  ++ (if truthy config.user then ["user=" ++ quote_conninfo (config.user.getD "")] else [])
  ++ (if truthy config.dbname then ["dbname=" ++ quote_conninfo (config.dbname.getD "")] else [])

/-- `build_conninfo` (cloud_backup.py lines 80-100): a `dbname` that is
the empty string or contains `=` is returned verbatim; otherwise the
space-joined `conn_parts`. -/
def build_conninfo (config : Config) : String :=
  match config.dbname with
  | some d =>
    if d = "" || d.data.contains '=' then d
    else String.intercalate " " (conn_parts config)
  | none => String.intercalate " " (conn_parts config)

/-- Unescaping of a backslash-escaped character sequence: a backslash
takes the following character literally. -/
def unescapeChars : List Char → List Char
  | [] => []
  | c :: rest =>
    if c = '\\' then
      match rest with
      | [] => ['\\']
      | d :: rest2 => d :: unescapeChars rest2
    else c :: unescapeChars rest

/-- Modelled from the spec: the conninfo-value parser is not part of
this repository (it lives in libpq, behind the external PostgreSQL
connection); the spec describes parsing as "unescaping the quoted form".
A string that is wrapped in single quotes has the wrapper removed and
the interior unescaped; any other string denotes itself. -/
def parse_conninfo_value (s : String) : String :=
  let l := s.data
  if 2 ≤ l.length && l.head? == some '\'' && l.getLast? == some '\'' then
    String.mk (unescapeChars (l.drop 1).dropLast)
  else s

/-- Spec §4.1, the quoting rule in the spec's words: "return the value
unmodified if it contains no whitespace; otherwise wrap it in single
quotes, escaping embedded backslashes and single quotes". -/
def spec_quote (value : String) : String :=
  if value.data.any isSpaceChar then
    String.mk ('\'' :: escapeConninfo value.data ++ ['\''])
  else value

/-- Spec §4.1, the composition rule in the spec's words: "compose
`key=value` pairs in fixed order — host, port, user, dbname — omitting
any key whose source value is unset". The spec's quoting rule never
handles an empty value, so "unset" is read as absent-or-empty, the
values the quoting rule cannot receive. -/
def spec_conninfo (config : Config) : String :=
  String.intercalate " "
    ((if truthy config.host then ["host=" ++ spec_quote (config.host.getD "")] else [])
    ++ (if truthy config.port then ["port=" ++ spec_quote (config.port.getD "")] else [])
    ++ (if truthy config.user then ["user=" ++ spec_quote (config.user.getD "")] else [])
    ++ (if truthy config.dbname then ["dbname=" ++ spec_quote (config.dbname.getD "")] else []))

/-- The process environment variables consumed by the module. `none`
models an absent variable. -/
structure Env where
  barman_hook : Option String
  barman_phase : Option String
  barman_backup_dir : Option String
  barman_backup_id : Option String
  barman_status : Option String
deriving Repr, DecidableEq

/-- `"%s" % os.getenv(name)`: an absent variable formats as `None`. -/
def envStr : Option String → String
  | none => "None"
  | some s => s

/-- The exceptions distinguished by the module's handlers. `systemExit`
models Python's `SystemExit`, which `except Exception` does not catch. -/
inductive Exc : Type where
  | barman : String → Exc
  | unrecoverableHook : String → Exc
  | postgresConnection : Exc
  | keyboardInterrupt : Exc
  | systemExit : Nat → Exc
  | generic : String → Exc
deriving Repr, DecidableEq

/-- `__is_hook_script` (cloud_backup.py lines 49-63): with both markers
present, the approved hooks paired with phase `post` yield `true`, any
other combination raises a `BarmanException` naming the observed phase
and hook; with at most one marker present the result is `false`. -/
def isHookScript (env : Env) : Except Exc Bool :=
  if env.barman_hook.isSome && env.barman_phase.isSome then
    if (env.barman_hook == some "backup_script"
          || env.barman_hook == some "backup_retry_script")
        && env.barman_phase == some "post" then
      .ok true
    else
      .error (.barman ("barman-cloud-backup called as unsupported hook script: "
        ++ envStr env.barman_phase ++ "_" ++ envStr env.barman_hook))
  else
    .ok false

/-- Outcome of one call to an external collaborator: a returned value,
or a raised exception. -/
inductive CallResult (α : Type) : Type where
  | ok : α → CallResult α
  | raise : Exc → CallResult α
deriving Repr, DecidableEq

/-- The behaviour of the external collaborators during one run: what
each external call returns or raises, in program order. -/
structure World where
  getCloudInterface : CallResult Unit
  testConnectivity : CallResult Bool
  setupBucket : CallResult Unit
  pgConnect : CallResult Unit
  backupHook : CallResult Unit
  backupPg : CallResult Unit
deriving Repr, DecidableEq

/-- The externally visible events of a run, in the order `main` performs
them. -/
inductive Event : Type where
  | mkTempDir
  | getCloudInterface
  | testConnectivity
  | resolveMode
  | setupBucket
  | pgConnect
  | transferHook
  | transferPg
  | closePostgres
  | closeCloudInterface
  | rmTempDir
deriving Repr, DecidableEq

/-- How the `try` body of `main` ends: normal completion, or a raised
exception. -/
inductive Outcome : Type where
  | normal : Outcome
  | exc : Exc → Outcome
deriving Repr, DecidableEq

/-- The body of `with closing(cloud_interface)` (cloud_backup.py lines
133-183): bucket setup, mode resolution, then either the hook-script
branch (env checks, `CloudBackupUploaderBarman.backup`) or the
direct-database branch (`build_conninfo`, connect, `with
closing(postgres)` around `CloudBackupUploaderPostgres.backup`). -/
def withClosingBody (config : Config) (env : Env) (w : World) :
    Outcome × List Event :=
  match w.setupBucket with
  | .raise e => (.exc e, [.setupBucket])
  | .ok _ =>
    match isHookScript env with
    | .error e => (.exc e, [.setupBucket, .resolveMode])
    | .ok true =>
      if env.barman_backup_dir.isNone then
        (.exc (.barman "BARMAN_BACKUP_DIR environment variable not set"),
          [.setupBucket, .resolveMode])
      else if env.barman_backup_id.isNone then
        (.exc (.barman "BARMAN_BACKUP_ID environment variable not set"),
          [.setupBucket, .resolveMode])
      else if env.barman_status ≠ some "DONE" then
        (.exc (.unrecoverableHook ("backup in '" ++ envStr env.barman_backup_dir
            ++ "' has status '" ++ envStr env.barman_status
            ++ "' (status should be: DONE)")),
          [.setupBucket, .resolveMode])
      else
        match w.backupHook with
        | .raise e => (.exc e, [.setupBucket, .resolveMode, .transferHook])
        | .ok _ => (.normal, [.setupBucket, .resolveMode, .transferHook])
    | .ok false =>
      let _conninfo := build_conninfo config
      match w.pgConnect with
      | .raise .postgresConnection =>
        (.exc (.systemExit 1), [.setupBucket, .resolveMode, .pgConnect])
      | .raise e => (.exc e, [.setupBucket, .resolveMode, .pgConnect])
      | .ok _ =>
        match w.backupPg with
        | .raise e =>
          (.exc e, [.setupBucket, .resolveMode, .pgConnect, .transferPg, .closePostgres])
        | .ok _ =>
          (.normal, [.setupBucket, .resolveMode, .pgConnect, .transferPg, .closePostgres])

/-- The `try` body of `main` (cloud_backup.py lines 113-183): cloud
interface construction, connectivity probe (`SystemExit 1` on failure,
`SystemExit 0` in test-only mode on success), then the
`with closing(cloud_interface)` block, whose `close` runs however the
block ends. -/
def tryBody (config : Config) (env : Env) (w : World) :
    Outcome × List Event :=
  match w.getCloudInterface with
  | .raise e => (.exc e, [.getCloudInterface])
  | .ok _ =>
    match w.testConnectivity with
    | .raise e => (.exc e, [.getCloudInterface, .testConnectivity])
    | .ok ok =>
      if !ok then
        (.exc (.systemExit 1), [.getCloudInterface, .testConnectivity])
      else if config.test then
        (.exc (.systemExit 0), [.getCloudInterface, .testConnectivity])
      else
        ((withClosingBody config env w).1,
         [.getCloudInterface, .testConnectivity]
           ++ (withClosingBody config env w).2 ++ [.closeCloudInterface])

/-- The exception handlers of `main` (cloud_backup.py lines 185-196)
as an exit-code mapping: `SystemExit` propagates with its code,
`KeyboardInterrupt` exits 1, `UnrecoverableHookScriptError` exits 63,
any other exception exits 1; normal completion exits 0. -/
def exitFor : Outcome → Nat
  | .normal => 0
  | .exc (.systemExit n) => n
  | .exc .keyboardInterrupt => 1
  | .exc (.unrecoverableHook _) => 63
  | .exc _ => 1

/-- `main` (cloud_backup.py lines 103-199): temporary directory
creation, the `try` body, the exception handlers, and the `finally`
block removing the temporary directory (`ignore_errors=True`) on every
path. The result is the process exit code and the event trace. -/
def mainRun (config : Config) (env : Env) (w : World) : Nat × List Event :=
  (exitFor (tryBody config env w).1,
   .mkTempDir :: (tryBody config env w).2 ++ [.rmTempDir])

/-- The outcome component of the `try` body, for stating which exception
a run raises. -/
def mainOutcome (config : Config) (env : Env) (w : World) : Outcome :=
  (tryBody config env w).1

/-- The event trace of a run. -/
def mainTrace (config : Config) (env : Env) (w : World) : List Event :=
  (mainRun config env w).2

/-- The exit code of a run. -/
def mainExit (config : Config) (env : Env) (w : World) : Nat :=
  (mainRun config env w).1

/-- Whether a call returned (rather than raised). -/
def CallResult.isOk {α : Type} : CallResult α → Bool
  | .ok _ => true
  | .raise _ => false

/-- Placement of mode resolution in a trace: when it occurs, it occurs
after the connectivity probe and after bucket provisioning, and before
any transfer operation. -/
def resolvePlacementOk (tr : List Event) : Bool :=
  !tr.contains .resolveMode ||
    (Nat.blt (tr.indexOf .testConnectivity) (tr.indexOf .resolveMode)
     && Nat.blt (tr.indexOf .setupBucket) (tr.indexOf .resolveMode)
     && (!tr.contains .transferPg
          || Nat.blt (tr.indexOf .resolveMode) (tr.indexOf .transferPg))
     && (!tr.contains .transferHook
          || Nat.blt (tr.indexOf .resolveMode) (tr.indexOf .transferHook)))

/-- The configuration produced by `parse_arguments` with no options:
test flag unset, no discrete connection parameters, `dbname` at its
default `postgres`. -/
def cfgDefault : Config :=
  { test := false, host := none, port := none, user := none, dbname := some "postgres" }

/-- `cfgDefault` with the connectivity-test-only flag set (`--test`). -/
def cfgTest : Config := { cfgDefault with test := true }

/-- An environment with none of the consumed variables set. -/
def envEmpty : Env :=
  { barman_hook := none, barman_phase := none, barman_backup_dir := none
  , barman_backup_id := none, barman_status := none }

/-- An approved hook invocation with directory, identifier and status
`DONE` all present. -/
def envHookDone : Env :=
  { barman_hook := some "backup_script", barman_phase := some "post"
  , barman_backup_dir := some "/var/backup/b", barman_backup_id := some "20210101T000000"
  , barman_status := some "DONE" }

/-- An approved hook invocation with no backup directory, identifier or
status in the environment. -/
def envHookBare : Env :=
  { barman_hook := some "backup_script", barman_phase := some "post"
  , barman_backup_dir := none, barman_backup_id := none, barman_status := none }

/-- Both markers present with an unapproved phase: `pre_backup_script`. -/
def envBadPair : Env :=
  { barman_hook := some "backup_script", barman_phase := some "pre"
  , barman_backup_dir := none, barman_backup_id := none, barman_status := none }

/-- An approved hook invocation whose reported status is `RUNNING`. -/
def envHookRunning : Env :=
  { barman_hook := some "backup_script", barman_phase := some "post"
  , barman_backup_dir := some "/var/backup/b", barman_backup_id := some "20210101T000000"
  , barman_status := some "RUNNING" }

/-- An environment with only the hook marker present. -/
def envHookOnly : Env :=
  { barman_hook := some "backup_script", barman_phase := none
  , barman_backup_dir := none, barman_backup_id := none, barman_status := none }

/-- A world in which every external call succeeds (and the probe
reports the destination reachable). -/
def wAllOk : World :=
  { getCloudInterface := .ok (), testConnectivity := .ok true, setupBucket := .ok ()
  , pgConnect := .ok (), backupHook := .ok (), backupPg := .ok () }

/-- `wAllOk` with the connectivity probe reporting failure. -/
def wProbeFail : World := { wAllOk with testConnectivity := .ok false }

theorem replaceChar_append (c : Char) (r : List Char) (l1 l2 : List Char) :
    replaceChar c r (l1 ++ l2) = replaceChar c r l1 ++ replaceChar c r l2 := by
  induction l1 with
  | nil => rfl
  | cons x xs ih => simp [replaceChar, ih]

theorem escapeConninfo_cons (c : Char) (cs : List Char) :
    escapeConninfo (c :: cs) =
      (if c = '\\' then ['\\', '\\']
       else if c = '\'' then ['\\', '\'']
       else [c]) ++ escapeConninfo cs := by
  unfold escapeConninfo
  by_cases h1 : c = '\\'
  · subst h1
    simp [replaceChar, replaceChar_append]
  · by_cases h2 : c = '\''
    · subst h2
      simp [replaceChar, replaceChar_append]
    · simp [replaceChar, replaceChar_append, h1, h2]

theorem unescapeChars_cons_ne (c : Char) (rest : List Char) (h1 : ¬ c = '\\') :
    unescapeChars (c :: rest) = c :: unescapeChars rest := by
  rw [unescapeChars.eq_def]
  simp [h1]

theorem unescapeChars_bs (d : Char) (rest : List Char) :
    unescapeChars ('\\' :: d :: rest) = d :: unescapeChars rest := by
  rw [unescapeChars.eq_def]
  simp

theorem unescape_escape (l : List Char) :
    unescapeChars (escapeConninfo l) = l := by
  induction l with
  | nil => rfl
  | cons c cs ih =>
    rw [escapeConninfo_cons]
    by_cases h1 : c = '\\'
    · subst h1
      simp [unescapeChars_bs, ih]
    · by_cases h2 : c = '\''
      · subst h2
        simp [unescapeChars_bs, ih]
      · simp [h1, h2, unescapeChars_cons_ne, ih]

theorem truthy_getD_isEmpty (o : Option String) (h : truthy o = true) :
    (o.getD "").isEmpty = false := by
  cases o with
  | none => simp [truthy] at h
  | some s => simpa [truthy] using h

theorem quote_eq_spec_quote (v : String) (h : v.isEmpty = false) :
    quote_conninfo v = spec_quote v := by
  unfold quote_conninfo spec_quote
  cases hv : v.data.any isSpaceChar <;> simp [h, hv]

theorem part_eq (key : String) (o : Option String) :
    (if truthy o then [key ++ quote_conninfo (o.getD "")] else []) =
    (if truthy o then [key ++ spec_quote (o.getD "")] else []) := by
  by_cases h : truthy o
  · simp [h, quote_eq_spec_quote _ (truthy_getD_isEmpty o h)]
  · simp [h]

theorem conninfo_parts_eq (c : Config) :
    String.intercalate " " (conn_parts c) = spec_conninfo c := by
  unfold conn_parts spec_conninfo
  rw [part_eq "host=" c.host, part_eq "port=" c.port, part_eq "user=" c.user,
      part_eq "dbname=" c.dbname]

theorem quote_conninfo_of_space (v : String) (hs : v.data.any isSpaceChar = true) :
    quote_conninfo v = String.mk ('\'' :: escapeConninfo v.data ++ ['\'']) := by
  unfold quote_conninfo
  have hne : v.isEmpty = false := by
    cases hv : v.isEmpty
    · rfl
    · have hv2 : v = "" := (String.isEmpty_iff v).mp hv
      subst hv2
      simp at hs
  simp [hne, hs]

/-- C2: for every `BackupConfiguration` whose `dbname` is the empty
string or contains `=`, `build_conninfo` returns that `dbname` value
unchanged; the `host`, `port` and `user` parameters (here universally
quantified and absent from the result) have no influence. -/
theorem build_conninfo_dsn_passthrough (t : Bool) (h p u : Option String) (d : String)
    (hd : d = "" ∨ d.data.contains '=' = true) :
    build_conninfo { test := t, host := h, port := p, user := u, dbname := some d } = d := by
  unfold build_conninfo
  rcases hd with hd | hd
  · subst hd; simp
  · have hm : '=' ∈ d.data := by simpa using hd
    simp [hm]

/-- Witness for `build_conninfo_dsn_passthrough` at a concrete DSN. -/
theorem build_conninfo_dsn_passthrough_witness :
    build_conninfo { test := false, host := some "h", port := some "5432"
                   , user := some "u", dbname := some "x=y" } = "x=y" :=
  build_conninfo_dsn_passthrough false (some "h") (some "5432") (some "u") "x=y"
    (Or.inr (by decide))

/-- C8: for every `BackupConfiguration` whose `dbname` is not a DSN
(non-empty, without `=`), `build_conninfo` agrees with the spec's
composition rule `spec_conninfo`: `key=value` pairs in the fixed order
host, port, user, dbname, omitting unset keys, each value passed
through the quoting rule (unmodified without whitespace, otherwise
single-quoted with embedded backslashes and single quotes escaped). -/
theorem build_conninfo_composes (c : Config) (d : String)
    (hdb : c.dbname = some d) (hne : ¬ d = "") (hsq : d.data.contains '=' = false) :
    build_conninfo c = spec_conninfo c := by
  unfold build_conninfo
  rw [hdb]
  have hm : '=' ∉ d.data := by simpa using hsq
  simp [hne, hm, conninfo_parts_eq]

/-- Witness for `build_conninfo_composes` at a concrete non-DSN
configuration. -/
theorem build_conninfo_composes_witness :
    build_conninfo { test := false, host := some "local host", port := some "5432"
                   , user := none, dbname := some "mydb" }
      = spec_conninfo { test := false, host := some "local host", port := some "5432"
                      , user := none, dbname := some "mydb" } :=
  build_conninfo_composes _ "mydb" rfl (by decide) (by decide)

/-- C7 counterexample: the value `''` contains a single quote, but
quoting it and then parsing the quoted form does not recover it: it has
no whitespace, so `quote_conninfo` returns it unchanged, and the parse
of the (apparently) quoted form yields the empty string. -/
theorem quote_roundtrip_cex :
    ("''").data.contains '\'' = true ∧
    parse_conninfo_value (quote_conninfo "''") ≠ "''" := by
  constructor
  · decide
  · decide

/-- C7 amended: for every value containing a single quote or a
backslash and containing whitespace (so that `quote_conninfo` actually
produces the quoted form), parsing the output recovers the original
string exactly. -/
theorem quote_conninfo_roundtrip (v : String)
    (hq : v.data.contains '\'' = true ∨ v.data.contains '\\' = true)
    (hs : v.data.any isSpaceChar = true) :
    parse_conninfo_value (quote_conninfo v) = v := by
  rw [quote_conninfo_of_space v hs]
  unfold parse_conninfo_value
  simp only [List.cons_append]
  have hlast : ('\'' :: (escapeConninfo v.data ++ ['\''])).getLast? = some '\'' := by
    rw [← List.cons_append, List.getLast?_concat]
  have hlen : 2 ≤ ('\'' :: (escapeConninfo v.data ++ ['\''])).length := by
    simp
  simp [hlast, hlen, List.dropLast_concat, unescape_escape]

/-- Witness for `quote_conninfo_roundtrip` at a value with a quote, a
backslash and a space. -/
theorem quote_conninfo_roundtrip_witness :
    parse_conninfo_value (quote_conninfo "a 'b\\c") = "a 'b\\c" :=
  quote_conninfo_roundtrip "a 'b\\c" (Or.inl (by decide)) (by decide)

/-- C4: for every run where the test-only flag is set and the
connectivity probe succeeds, the process exits with code 0 and neither
bucket provisioning nor any transfer operation is invoked. -/
theorem test_mode_short_circuit (cfg : Config) (env : Env) (w : World)
    (ht : cfg.test = true)
    (hgci : w.getCloudInterface = .ok ())
    (htc : w.testConnectivity = .ok true) :
    mainExit cfg env w = 0 ∧
    Event.setupBucket ∉ mainTrace cfg env w ∧
    Event.transferHook ∉ mainTrace cfg env w ∧
    Event.transferPg ∉ mainTrace cfg env w := by
  unfold mainExit mainTrace mainRun tryBody
  rw [hgci, htc]
  simp [ht, exitFor]

/-- Witness for `test_mode_short_circuit`: the test-only configuration
with a reachable destination. -/
theorem test_mode_short_circuit_witness :
    mainExit cfgTest envEmpty wAllOk = 0 ∧
    Event.setupBucket ∉ mainTrace cfgTest envEmpty wAllOk ∧
    Event.transferHook ∉ mainTrace cfgTest envEmpty wAllOk ∧
    Event.transferPg ∉ mainTrace cfgTest envEmpty wAllOk :=
  test_mode_short_circuit cfgTest envEmpty wAllOk rfl rfl rfl

/-- C5: for every run where the connectivity probe reports failure, the
process exits with code 1 and bucket provisioning is never invoked. -/
theorem probe_failure_halts (cfg : Config) (env : Env) (w : World)
    (hgci : w.getCloudInterface = .ok ())
    (htc : w.testConnectivity = .ok false) :
    mainExit cfg env w = 1 ∧
    Event.setupBucket ∉ mainTrace cfg env w := by
  unfold mainExit mainTrace mainRun tryBody
  rw [hgci, htc]
  simp [exitFor]

/-- Witness for `probe_failure_halts`: the default configuration with
an unreachable destination. -/
theorem probe_failure_halts_witness :
    mainExit cfgDefault envEmpty wProbeFail = 1 ∧
    Event.setupBucket ∉ mainTrace cfgDefault envEmpty wProbeFail :=
  probe_failure_halts cfgDefault envEmpty wProbeFail rfl rfl

/-- C6: in every run — whatever any external call returns or raises —
the trace ends with the removal of the scoped temporary directory,
that removal happens exactly once, and the direct-database connection
is closed exactly once when it was opened (its `connect` call was
reached and returned) and never otherwise. -/
theorem cleanup_always (cfg : Config) (env : Env) (w : World) :
    (mainTrace cfg env w).getLast? = some Event.rmTempDir ∧
    (mainTrace cfg env w).count Event.rmTempDir = 1 ∧
    (mainTrace cfg env w).count Event.closePostgres =
      (if (mainTrace cfg env w).contains Event.pgConnect && w.pgConnect.isOk
       then 1 else 0) := by
  obtain ⟨gci, tc, sb, pc, bh, bp⟩ := w
  unfold mainTrace mainRun tryBody withClosingBody
  dsimp only
  rcases gci with u | e
  · rcases tc with b | e
    · cases b
      · simp [CallResult.isOk]
      · by_cases ht : cfg.test
        · simp [ht, CallResult.isOk]
        · rcases sb with u1 | e1
          · rcases hh : isHookScript env with he | hb
            · simp [ht, hh, CallResult.isOk]
            · cases hb
              · rcases pc with u2 | e2
                · rcases bp with u3 | e3 <;> simp [ht, hh, CallResult.isOk]
                · cases e2 <;> simp [ht, hh, CallResult.isOk]
              · by_cases hd : env.barman_backup_dir = none
                · simp [ht, hh, hd, CallResult.isOk]
                · by_cases hi : env.barman_backup_id = none
                  · simp [ht, hh, hd, hi, CallResult.isOk]
                  · by_cases hst : env.barman_status = some "DONE"
                    · rcases bh with u2 | e2 <;>
                        simp [ht, hh, hd, hi, hst, CallResult.isOk]
                    · simp [ht, hh, hd, hi, hst, CallResult.isOk]
          · simp [ht, CallResult.isOk]
    · simp [CallResult.isOk]
  · simp [CallResult.isOk]

/-- C1 counterexample: mode resolution is not performed exactly once
per run, nor before remote I/O. In the probe-failure run it is never
performed; in the all-success run it is performed, but not before the
connectivity probe and not before bucket provisioning. -/
theorem resolve_not_before_io_cex :
    (mainTrace cfgDefault envEmpty wProbeFail).count Event.resolveMode = 0 ∧
    Event.resolveMode ∈ mainTrace cfgDefault envEmpty wAllOk ∧
    ¬ ((mainTrace cfgDefault envEmpty wAllOk).indexOf Event.resolveMode
        < (mainTrace cfgDefault envEmpty wAllOk).indexOf Event.testConnectivity) ∧
    ¬ ((mainTrace cfgDefault envEmpty wAllOk).indexOf Event.resolveMode
        < (mainTrace cfgDefault envEmpty wAllOk).indexOf Event.setupBucket) := by
  decide

/-- C1 amended: in every run, mode resolution is performed at most
once, and whenever it is performed it comes after the connectivity
probe and after bucket provisioning, and before any transfer
operation. -/
theorem resolve_at_most_once_after_probe (cfg : Config) (env : Env) (w : World) :
    (mainTrace cfg env w).count Event.resolveMode ≤ 1 ∧
    resolvePlacementOk (mainTrace cfg env w) = true := by
  obtain ⟨gci, tc, sb, pc, bh, bp⟩ := w
  unfold mainTrace mainRun tryBody withClosingBody
  dsimp only
  rcases gci with u | e
  · rcases tc with b | e
    · cases b
      · simp [resolvePlacementOk]
      · by_cases ht : cfg.test
        · simp [ht, resolvePlacementOk]
        · rcases sb with u1 | e1
          · rcases hh : isHookScript env with he | hb
            · simp [ht, hh, resolvePlacementOk]
            · cases hb
              · rcases pc with u2 | e2
                · rcases bp with u3 | e3 <;> simp [ht, hh, resolvePlacementOk]
                · cases e2 <;> simp [ht, hh, resolvePlacementOk]
              · by_cases hd : env.barman_backup_dir = none
                · simp [ht, hh, hd, resolvePlacementOk]
                · by_cases hi : env.barman_backup_id = none
                  · simp [ht, hh, hd, hi, resolvePlacementOk]
                  · by_cases hst : env.barman_status = some "DONE"
                    · rcases bh with u2 | e2 <;>
                        simp [ht, hh, hd, hi, hst, resolvePlacementOk]
                    · simp [ht, hh, hd, hi, hst, resolvePlacementOk]
          · simp [ht, resolvePlacementOk]
    · simp [resolvePlacementOk]
  · simp [resolvePlacementOk]

/-- C3 counterexample: an approved hook invocation whose status is
absent (hence not `DONE`), but whose backup directory is also absent,
raises the directory `BarmanException` first and exits with code 1,
not 63. -/
theorem hook_status_exit63_cex :
    mainExit cfgDefault envHookBare wAllOk = 1 ∧
    mainOutcome cfgDefault envHookBare wAllOk
      = .exc (.barman "BARMAN_BACKUP_DIR environment variable not set") ∧
    envHookBare.barman_status ≠ some "DONE" := by
  decide

/-- C3 amended: if the run is resolved as an approved hook-script
invocation, the backup directory and identifier are both present, and
the status is anything other than `DONE` (including absent), the run
raises an `UnrecoverableHookScriptError` whose message carries the
observed backup directory and status, and the process exits with
code 63. -/
theorem hook_bad_status_exit63 (cfg : Config) (env : Env) (w : World) (dir : String)
    (hhk : env.barman_hook = some "backup_script"
            ∨ env.barman_hook = some "backup_retry_script")
    (hph : env.barman_phase = some "post")
    (hdir : env.barman_backup_dir = some dir)
    (hid : env.barman_backup_id ≠ none)
    (hst : env.barman_status ≠ some "DONE")
    (hgci : w.getCloudInterface = .ok ())
    (htc : w.testConnectivity = .ok true)
    (ht : cfg.test = false)
    (hsb : w.setupBucket = .ok ()) :
    mainExit cfg env w = 63 ∧
    mainOutcome cfg env w = .exc (.unrecoverableHook
      ("backup in '" ++ dir ++ "' has status '" ++ envStr env.barman_status
        ++ "' (status should be: DONE)")) := by
  have hhook : isHookScript env = .ok true := by
    unfold isHookScript
    rcases hhk with h | h <;> simp [h, hph]
  unfold mainExit mainOutcome mainRun tryBody withClosingBody
  rw [hgci, htc, hsb]
  simp [ht, hhook, hdir, hid, hst, exitFor, envStr]

/-- Witness for `hook_bad_status_exit63`: an approved hook invocation
with directory and identifier present and status `RUNNING`. -/
theorem hook_bad_status_exit63_witness :
    mainExit cfgDefault envHookRunning wAllOk = 63 ∧
    mainOutcome cfgDefault envHookRunning wAllOk = .exc (.unrecoverableHook
      ("backup in '" ++ "/var/backup/b" ++ "' has status '"
        ++ envStr envHookRunning.barman_status ++ "' (status should be: DONE)")) :=
  hook_bad_status_exit63 cfgDefault envHookRunning wAllOk "/var/backup/b"
    (Or.inl rfl) rfl rfl (by decide) (by decide) rfl rfl rfl rfl

/-- C9 counterexample: with both markers present and an unapproved
(hook, phase) pair but the test-only flag set and the probe
succeeding, the run exits with code 0 and mode resolution is never
performed, so it does not fail with exit code 1. -/
theorem unapproved_pair_cex :
    envBadPair.barman_hook.isSome = true ∧
    envBadPair.barman_phase.isSome = true ∧
    mainExit cfgTest envBadPair wAllOk = 0 ∧
    (mainTrace cfgTest envBadPair wAllOk).count Event.resolveMode = 0 := by
  decide

/-- C9 amended: in every run that reaches mode resolution (probe
succeeded, test-only flag unset, provisioning succeeded) with both hook
markers present but an unapproved (hook, phase) pair, resolution fails
with an error whose message names both the observed phase and the
observed hook, and the process exits with code 1. -/
theorem unapproved_hook_pair_exit1 (cfg : Config) (env : Env) (w : World) (hk ph : String)
    (hhk : env.barman_hook = some hk)
    (hph : env.barman_phase = some ph)
    (hbad : ¬ ((hk = "backup_script" ∨ hk = "backup_retry_script") ∧ ph = "post"))
    (hgci : w.getCloudInterface = .ok ())
    (htc : w.testConnectivity = .ok true)
    (ht : cfg.test = false)
    (hsb : w.setupBucket = .ok ()) :
    mainExit cfg env w = 1 ∧
    mainOutcome cfg env w = .exc (.barman
      ("barman-cloud-backup called as unsupported hook script: " ++ ph ++ "_" ++ hk)) := by
  have hhook : isHookScript env = .error (.barman
      ("barman-cloud-backup called as unsupported hook script: " ++ ph ++ "_" ++ hk)) := by
    unfold isHookScript
    rw [hhk, hph]
    rw [if_pos (by simp), if_neg]
    · simp [envStr]
    · intro hcond
      apply hbad
      simpa using hcond
  unfold mainExit mainOutcome mainRun tryBody withClosingBody
  rw [hgci, htc, hsb]
  simp [ht, hhook, exitFor]

/-- Witness for `unapproved_hook_pair_exit1`: phase `pre` with an
approved hook name, in a run that reaches resolution. -/
theorem unapproved_hook_pair_exit1_witness :
    mainExit cfgDefault envBadPair wAllOk = 1 ∧
    mainOutcome cfgDefault envBadPair wAllOk = .exc (.barman
      ("barman-cloud-backup called as unsupported hook script: "
        ++ "pre" ++ "_" ++ "backup_script")) :=
  unapproved_hook_pair_exit1 cfgDefault envBadPair wAllOk "backup_script" "pre"
    rfl rfl (by decide) rfl rfl rfl rfl

/-- C10: for every environment where exactly one of the two hook
markers is present, `__is_hook_script` returns `false` without raising,
and a run reaching mode dispatch proceeds in direct-database mode: it
attempts the PostgreSQL connection and never invokes the hook-script
transfer. -/
theorem single_marker_direct_mode (cfg : Config) (env : Env) (w : World)
    (hx : (env.barman_hook.isSome ^^ env.barman_phase.isSome) = true)
    (hgci : w.getCloudInterface = .ok ())
    (htc : w.testConnectivity = .ok true)
    (ht : cfg.test = false)
    (hsb : w.setupBucket = .ok ()) :
    isHookScript env = .ok false ∧
    Event.pgConnect ∈ mainTrace cfg env w ∧
    Event.transferHook ∉ mainTrace cfg env w := by
  have hhook : isHookScript env = .ok false := by
    unfold isHookScript
    have hb : (env.barman_hook.isSome && env.barman_phase.isSome) = false := by
      cases h1 : env.barman_hook.isSome <;> cases h2 : env.barman_phase.isSome <;>
        simp_all
    simp [hb]
  refine ⟨hhook, ?_, ?_⟩ <;>
    (unfold mainTrace mainRun tryBody withClosingBody
     rw [hgci, htc, hsb]
     rcases hpc : w.pgConnect with u | e
     · rcases hbp : w.backupPg with u2 | e2 <;> simp [ht, hhook, hpc, hbp]
     · cases e <;> simp [ht, hhook, hpc])

/-- Witness for `single_marker_direct_mode`: only `BARMAN_HOOK` set. -/
theorem single_marker_direct_mode_witness :
    isHookScript envHookOnly = .ok false ∧
    Event.pgConnect ∈ mainTrace cfgDefault envHookOnly wAllOk ∧
    Event.transferHook ∉ mainTrace cfgDefault envHookOnly wAllOk :=
  single_marker_direct_mode cfgDefault envHookOnly wAllOk (by decide) rfl rfl rfl rfl

end CloudBackup
